import Mathlib

/-!
Verification development for the Athena inventory transfer engine
(`src/core/server/views/inventory.ts`).

The definitions below are a shallow embedding of `InventoryController` and its
collaborators.  Containers are lists of items carrying their own slot number,
exactly as `player.data.inventory` / `.equipment` / `.toolbar` are arrays of
item records with a `slot` field, looked up with `find(i => i.slot === n)`.
Machine side effects (synchronization, persistence, sounds, animations, event
emission, streamer registration) are recorded in an explicit effect trace.

Helpers that live in the repository but outside the sampled sources
(`playerFuncs.inventory.*`, `stripCategory`, `distance2d`, `isFlagEnabled`,
`sha256Random`) are modelled from the specification; each such definition says
so in its doc comment.
-/

/-- Position record with rational coordinates standing in for the float
vectors of `player.pos` and `droppedItem.position`. -/
structure Pos where
  x : Rat
  y : Rat
  z : Rat
deriving DecidableEq

/-- Item record; the fields are the ones the inventory controller reads:
`name`, `slot`, `quantity`, `behavior` (flag bitset), `hash`, `equipment`,
`data.sex`, `data.event`, `model`. -/
structure Item where
  name : String
  slot : Int
  quantity : Int
  behavior : Nat
  hash : Option String
  equipment : Option Int
  dataSex : Option Int
  dataEvent : Option String
  model : Option String
deriving DecidableEq

/-- Dropped item record pushed onto `GROUND_ITEMS`:
`{ gridSpace, item, position, dimension }`. -/
structure DroppedItem where
  gridSpace : Int
  item : Item
  position : Pos
  dimension : Int
deriving DecidableEq

/-- Container kinds.  The source keys them twice, as `SLOT_TYPE`
abbreviations (`i-`, `t-`, `e-`, `g-`) and as `INVENTORY_TYPE` names; the two
keyings are in bijection through the `DataHelpers` table, so one inductive
covers both. -/
inductive SlotKind where
  | inventory
  | toolbar
  | equipment
  | ground
deriving DecidableEq

/-- Slot identifier.  The source passes strings such as `i-0`; parsing them
with `stripCategory` / abbreviation matching lives outside the sampled
sources, so (modelled from the spec, section 4.1) a slot identifier is the
pair of its container kind and its numeric index. -/
structure SlotId where
  kind : SlotKind
  index : Int
deriving DecidableEq

/-- The twelve transition kinds of the `INVENTORY_RULES` enum. -/
inductive INVENTORY_RULES where
  | FROM_EQUIPMENT_TO_INVENTORY
  | FROM_EQUIPMENT_TO_TOOLBAR
  | FROM_INVENTORY_TO_EQUIPMENT
  | FROM_INVENTORY_TO_GROUND
  | FROM_INVENTORY_TO_TOOLBAR
  | FROM_TOOLBAR_TO_EQUIPMENT
  | FROM_TOOLBAR_TO_INVENTORY
  | FROM_EQUIPMENT_TO_GROUND
  | FROM_TOOLBAR_TO_GROUND
  | FROM_GROUND_TO_INVENTORY
  | FROM_GROUND_TO_EQUIPMENT
  | FROM_GROUND_TO_TOOLBAR
deriving DecidableEq

/-- A registered rule callback `(item, selectedSlot, endSlot, rule) => boolean`.
The source awaits each callback; the asynchronous wrapper is dropped and only
the resulting boolean is modelled. -/
def RulePred : Type := Item → Int → Int → INVENTORY_RULES → Bool

/-- The `ITEM_RULES` table: an ordered callback list per transition kind. -/
def RuleRegistry : Type := INVENTORY_RULES → List RulePred

/-- Behavior flag bits.  The `ITEM_TYPE` enum lives outside the sampled
sources; modelled from the spec (section 3, `behaviorFlags` bitset) as
distinct bits, the exact numeric values being irrelevant to the engine. -/
def ITEM_TYPE_CAN_DROP : Nat := 1

/-- Behavior flag bit for equipment items (modelled from the spec). -/
def ITEM_TYPE_IS_EQUIPMENT : Nat := 2

/-- Behavior flag bit for consumable items (modelled from the spec). -/
def ITEM_TYPE_CONSUMABLE : Nat := 4

/-- Behavior flag bit skipping consumption on use (modelled from the spec). -/
def ITEM_TYPE_SKIP_CONSUMABLE : Nat := 8

/-- Behavior flag bit destroying the item when dropped (modelled from the
spec). -/
def ITEM_TYPE_DESTROY_ON_DROP : Nat := 16

/-- Flag membership test.  `isFlagEnabled` is in `shared/utility/flags`,
outside the sampled sources; modelled from the spec (section 3) as bitset
membership. -/
def isFlagEnabled (flags flag : Nat) : Bool :=
  decide (Nat.land flags flag ≠ 0)

/-- Squared planar distance between two positions. -/
def distance2dSq (a b : Pos) : Rat :=
  (a.x - b.x) * (a.x - b.x) + (a.y - b.y) * (a.y - b.y)

/-- The pickup guard `distance2d(player.pos, droppedItem.position) >= 10`.
`distance2d` is in `shared/utility/vector`, outside the sampled sources;
modelled from the spec (section 4.5 fixed radius) and from its name as the
planar Euclidean distance, compared in squared form since the square root is
monotone: the distance is at least 10 iff its square is at least 100. -/
def pickupTooFar (a b : Pos) : Bool :=
  decide ((100 : Rat) ≤ distance2dSq a b)

/-- Read the item record stored at a slot: `container.find(i => i.slot === s)`
(the `readItem` capability of the adapter table, spec section 4.1). -/
def containerGet (c : List Item) (s : Int) : Option Item :=
  c.find? (fun i => decide (i.slot = s))

/-- The `removeItem` adapter capability, modelled from the spec
(section 4.1): succeeds iff an item was present at the slot, and removes it. -/
def containerRemove (c : List Item) (s : Int) : Option (List Item) :=
  if c.any (fun i => decide (i.slot = s)) then
    some (c.filter (fun i => !decide (i.slot = s)))
  else
    none

/-- The `insertItem` adapter capability, modelled from the spec
(section 4.1): fails iff the slot is occupied, otherwise stores the item with
its slot field set to the destination slot. -/
def containerAdd (c : List Item) (it : Item) (s : Int) : Option (List Item) :=
  if c.any (fun i => decide (i.slot = s)) then
    none
  else
    some (c ++ [{ it with slot := s }])

/-- The `isSlotFree` adapter capability (spec section 4.1). -/
def slotIsFree (c : List Item) (s : Int) : Bool :=
  (containerGet c s).isNone

/-- The `replaceInventoryItem` helper used by the consumable path; modelled
from the spec (section 4.6): overwrite the record in the slot the item
carries. -/
def replaceInventoryItem (c : List Item) (it : Item) : List Item :=
  c.map (fun i => if i.slot = it.slot then it else i)

/-- The `equipmentRemove` helper: removal keyed by equipment kind instead of
slot; modelled from the spec (section 4.6, the occupant of the target
equipment slot is displaced). -/
def removeByEquipment (c : List Item) (eq : Int) : Option (List Item) :=
  if c.any (fun i => decide (i.equipment = some eq)) then
    some (c.filter (fun i => !decide (i.equipment = some eq)))
  else
    none

/-- The `getFreeInventorySlot` helper; modelled from the spec (section 4.5):
the first free personal storage slot below the container capacity, if any. -/
def getFreeInventorySlot (cap : Nat) (c : List Item) : Option Int :=
  ((List.range cap).map Int.ofNat).find?
    (fun s => !(c.any (fun i => decide (i.slot = s))))

/-- The three owned containers of `player.data`. -/
structure PlayerData where
  inventory : List Item
  equipment : List Item
  toolbar : List Item
deriving DecidableEq

/-- Container contents by kind.  The `DataHelpers` entry for ground has null
adapter operations; every call site excludes ground before touching them, and
the model returns the empty container there. -/
def cont (d : PlayerData) : SlotKind → List Item
  | SlotKind.inventory => d.inventory
  | SlotKind.toolbar => d.toolbar
  | SlotKind.equipment => d.equipment
  | SlotKind.ground => []

/-- Write back container contents by kind (ground writes are never
performed by the source and leave the data unchanged). -/
def setCont (d : PlayerData) : SlotKind → List Item → PlayerData
  | SlotKind.inventory, c => { d with inventory := c }
  | SlotKind.toolbar, c => { d with toolbar := c }
  | SlotKind.equipment, c => { d with equipment := c }
  | SlotKind.ground, _ => d

/-- Shared mutable state touched by the controller: the per-player containers
and the process-wide `GROUND_ITEMS` array. -/
structure St where
  data : PlayerData
  ground : List DroppedItem
deriving DecidableEq

/-- Observable side effects, in emission order. -/
inductive Effect where
  | sync
  | save (kind : SlotKind)
  | sound (cue : String)
  | animation
  | message (text : String)
  | removeAllWeapons
  | emitDroppedItem (it : Item)
  | emitItemEvent (name : String) (it : Item) (slot : Int)
  | serverItemAppend (uid : String) (pos : Pos)
  | serverObjectAppend (uid : String) (pos : Pos) (model : String)
  | serverItemRemove (uid : String)
  | serverObjectRemove (uid : String)
deriving DecidableEq

/-- Outcome of one request: the updated state plus the emitted effect trace. -/
structure Res where
  data : PlayerData
  ground : List DroppedItem
  effects : List Effect
deriving DecidableEq

/-- Environment of one request: the player facts the controller reads and the
externally supplied collaborators. -/
structure Env where
  /-- The `!player || !player.valid || !player.data` guard at the head of
  `processItemMovement`. -/
  valid : Bool
  /-- Whether `player.vehicle` is set. -/
  inVehicle : Bool
  /-- The player position `player.pos`. -/
  pos : Pos
  /-- The spatial band `player.gridSpace`. -/
  gridSpace : Int
  /-- The world partition `player.dimension`. -/
  dimension : Int
  /-- The identity attribute `player.data.appearance.sex`. -/
  appearanceSex : Int
  /-- Personal storage capacity bounding the free-slot search. -/
  invCap : Nat
  /-- The `ITEM_RULES` registry contents at request time. -/
  rules : RuleRegistry
  /-- The placement policy `playerFuncs.inventory.allItemRulesValid`,
  outside the sampled sources; modelled from the spec (section 4.3 step 8)
  as an opaque external predicate on item, destination kind and slot. -/
  allItemRulesValid : Item → SlotKind → Option Int → Bool
  /-- The fresh token `sha256Random(JSON.stringify(itemClone))`; modelled
  from the spec (section 4.4) as an external token source keyed by the
  serialized item. -/
  mkHash : Item → String
  /-- The drop anchor `getPositionFrontOf(player, 0.5)`. -/
  frontPos : Pos

/-- The loop body of `InventoryController.verifyRules`: run the callbacks in
registration order, stopping at the first false; the empty list verifies. -/
def verifyList (preds : List RulePred) (item : Item) (selectedSlot endSlot : Int)
    (rule : INVENTORY_RULES) : Bool :=
  match preds with
  | [] => true
  | p :: ps =>
    if p item selectedSlot endSlot rule then
      verifyList ps item selectedSlot endSlot rule
    else
      false

/-- `InventoryController.verifyRules(rule, item, selectedSlot, endSlot)`:
verify the registered callback list of one transition kind. -/
def verifyRules (reg : RuleRegistry) (rule : INVENTORY_RULES) (item : Item)
    (selectedSlot endSlot : Int) : Bool :=
  verifyList (reg rule) item selectedSlot endSlot rule

/-- `InventoryController.addRule(rule, callback)`: append the callback to the
transition kind entry.  Every `INVENTORY_RULES` member is a key of
`ITEM_RULES`, so the existence guard always passes and the result is true. -/
def addRule (reg : RuleRegistry) (rule : INVENTORY_RULES) (p : RulePred) :
    RuleRegistry × Bool :=
  (fun r => if r = rule then reg r ++ [p] else reg r, true)

/-- Result record of `getInventoryRule`: the rule for the selected direction
and the rule for the reverse direction (named `end` in the source). -/
structure RulePair where
  selected : INVENTORY_RULES
  endRule : INVENTORY_RULES
deriving DecidableEq

/-- `InventoryController.getInventoryRule(selectData, endData)`: the six
cross-kind cases among the owned containers, in source order; null
otherwise. -/
def getInventoryRule (selectKind endKind : SlotKind) : Option RulePair :=
  if selectKind = SlotKind.inventory ∧ endKind = SlotKind.toolbar then
    some ⟨INVENTORY_RULES.FROM_INVENTORY_TO_TOOLBAR, INVENTORY_RULES.FROM_TOOLBAR_TO_INVENTORY⟩
  else if selectKind = SlotKind.inventory ∧ endKind = SlotKind.equipment then
    some ⟨INVENTORY_RULES.FROM_INVENTORY_TO_EQUIPMENT, INVENTORY_RULES.FROM_EQUIPMENT_TO_INVENTORY⟩
  else if selectKind = SlotKind.equipment ∧ endKind = SlotKind.inventory then
    some ⟨INVENTORY_RULES.FROM_EQUIPMENT_TO_INVENTORY, INVENTORY_RULES.FROM_INVENTORY_TO_EQUIPMENT⟩
  else if selectKind = SlotKind.equipment ∧ endKind = SlotKind.toolbar then
    some ⟨INVENTORY_RULES.FROM_EQUIPMENT_TO_TOOLBAR, INVENTORY_RULES.FROM_TOOLBAR_TO_EQUIPMENT⟩
  else if selectKind = SlotKind.toolbar ∧ endKind = SlotKind.inventory then
    some ⟨INVENTORY_RULES.FROM_TOOLBAR_TO_INVENTORY, INVENTORY_RULES.FROM_INVENTORY_TO_TOOLBAR⟩
  else if selectKind = SlotKind.toolbar ∧ endKind = SlotKind.equipment then
    some ⟨INVENTORY_RULES.FROM_TOOLBAR_TO_EQUIPMENT, INVENTORY_RULES.FROM_EQUIPMENT_TO_TOOLBAR⟩
  else
    none

/-- Weapon-clearing side effect of `processItemMovement`: moving out of the
toolbar to a non-toolbar destination calls `player.removeAllWeapons()` before
any other processing. -/
def weaponFx (selectedSlot endSlot : SlotId) : List Effect :=
  if selectedSlot.kind = SlotKind.toolbar ∧ endSlot.kind ≠ SlotKind.toolbar then
    [Effect.removeAllWeapons]
  else
    []

/-- The `playerFuncs.inventory.handleSwapOrStack` collaborator, outside the
sampled sources; modelled from the spec (section 4.3 step 7 and the comment
above its call site): with both slots occupied, merge quantities into the
destination when the two items are of the same item type, otherwise exchange
the slot occupants; then persist both containers, resynchronize and play the
success cue. -/
def handleSwapOrStack (st : St) (selectedSlot endSlot : SlotId) : Res :=
  let d := st.data
  match containerGet (cont d selectedSlot.kind) selectedSlot.index,
      containerGet (cont d endSlot.kind) endSlot.index with
  | some a, some b =>
    let d4 :=
      if a.name = b.name then
        let d1 := setCont d selectedSlot.kind
          ((cont d selectedSlot.kind).filter (fun i => !decide (i.slot = selectedSlot.index)))
        setCont d1 endSlot.kind
          (replaceInventoryItem (cont d1 endSlot.kind) { b with quantity := b.quantity + a.quantity })
      else
        let d1 := setCont d selectedSlot.kind
          ((cont d selectedSlot.kind).filter (fun i => !decide (i.slot = selectedSlot.index)))
        let d2 := setCont d1 endSlot.kind
          ((cont d1 endSlot.kind).filter (fun i => !decide (i.slot = endSlot.index)))
        let d3 := setCont d2 endSlot.kind (cont d2 endSlot.kind ++ [{ a with slot := endSlot.index }])
        setCont d3 selectedSlot.kind (cont d3 selectedSlot.kind ++ [{ b with slot := selectedSlot.index }])
    { data := d4, ground := st.ground,
      effects := [Effect.save selectedSlot.kind, Effect.save endSlot.kind, Effect.sync,
        Effect.sound "item_shuffle_1"] }
  | _, _ =>
    { data := d, ground := st.ground, effects := [Effect.sync] }

/-- Transition kind of the ground drop path, chosen by the source-kind
abbreviation chain of `handleDropGround`. -/
def dropRuleFor : SlotKind → Option INVENTORY_RULES
  | SlotKind.inventory => some INVENTORY_RULES.FROM_INVENTORY_TO_GROUND
  | SlotKind.equipment => some INVENTORY_RULES.FROM_EQUIPMENT_TO_GROUND
  | SlotKind.toolbar => some INVENTORY_RULES.FROM_TOOLBAR_TO_GROUND
  | SlotKind.ground => none

/-- Transition kind of the ground pickup path, chosen by the
destination-kind abbreviation chain of `handlePickupGround`.  The source
tests the abbreviations inventory, then GROUND, then toolbar: the middle test
uses `SLOT_TYPE.GROUND` where the assigned rule is
`FROM_GROUND_TO_EQUIPMENT`, so an equipment destination matches no branch and
no rule is selected for it. -/
def pickupRuleFor : SlotKind → Option INVENTORY_RULES
  | SlotKind.inventory => some INVENTORY_RULES.FROM_GROUND_TO_INVENTORY
  | SlotKind.ground => some INVENTORY_RULES.FROM_GROUND_TO_EQUIPMENT
  | SlotKind.toolbar => some INVENTORY_RULES.FROM_GROUND_TO_TOOLBAR
  | SlotKind.equipment => none

/-- `InventoryController.handleDropGround(player, selectedSlot)`. -/
def handleDropGround (env : Env) (st : St) (selectedSlot : SlotId) : Res :=
  let selIdx := selectedSlot.index
  let selK := selectedSlot.kind
  if selK = SlotKind.ground then
    { data := st.data, ground := st.ground, effects := [Effect.sync] }
  else
    let itemCloneOpt := containerGet (cont st.data selK) selIdx
    if env.inVehicle then
      { data := st.data, ground := st.ground, effects := [Effect.sync] }
    else
      match itemCloneOpt with
      | none => { data := st.data, ground := st.ground, effects := [Effect.sync] }
      | some itemClone =>
        if !isFlagEnabled itemClone.behavior ITEM_TYPE_CAN_DROP then
          { data := st.data, ground := st.ground, effects := [Effect.sync] }
        else if !env.allItemRulesValid itemClone SlotKind.ground none then
          { data := st.data, ground := st.ground, effects := [Effect.sync] }
        else
          let ruleOk :=
            match dropRuleFor selK with
            | some dt => verifyRules env.rules dt itemClone selIdx (-1)
            | none => true
          if !ruleOk then
            { data := st.data, ground := st.ground, effects := [Effect.sync] }
          else
            match containerRemove (cont st.data selK) itemClone.slot with
            | none => { data := st.data, ground := st.ground, effects := [Effect.sync] }
            | some c1 =>
              let d1 := setCont st.data selK c1
              let baseFx := [Effect.save selK, Effect.sync, Effect.sound "item_drop_1"]
              if isFlagEnabled itemClone.behavior ITEM_TYPE_DESTROY_ON_DROP then
                { data := d1, ground := st.ground,
                  effects := baseFx ++ [Effect.animation,
                    Effect.message (itemClone.name ++ " was destroyed on drop.")] }
              else
                let uid := env.mkHash itemClone
                let hashed := { itemClone with hash := some uid }
                let groundPos : Pos := ⟨env.frontPos.x, env.frontPos.y, env.pos.z - 1⟩
                let itemInfoPos : Pos := ⟨env.frontPos.x, env.frontPos.y, env.pos.z - 3 / 10⟩
                let dropped : DroppedItem := ⟨env.gridSpace, hashed, itemInfoPos, env.dimension⟩
                let objectModel := match hashed.model with
                  | some m => m
                  | none => "prop_cs_box_clothes"
                { data := d1, ground := st.ground ++ [dropped],
                  effects := baseFx ++
                    [Effect.serverItemAppend uid itemInfoPos,
                     Effect.serverObjectAppend uid groundPos objectModel,
                     Effect.animation,
                     Effect.emitDroppedItem hashed] }

/-- Remove the first list element satisfying the predicate, as
`GROUND_ITEMS.splice(index, 1)` does at the index found by `findIndex`. -/
def removeFirstMatch (p : DroppedItem → Bool) : List DroppedItem → List DroppedItem
  | [] => []
  | x :: xs => if p x then xs else x :: removeFirstMatch p xs

/-- `InventoryController.handlePickupGround(player, endData, endSlotIndex, hash)`. -/
def handlePickupGround (env : Env) (st : St) (endKind : SlotKind) (endSlotIndex : Int)
    (hash : Option String) : Res :=
  if env.inVehicle then
    { data := st.data, ground := st.ground, effects := [Effect.sync] }
  else if !slotIsFree (cont st.data endKind) endSlotIndex then
    { data := st.data, ground := st.ground, effects := [Effect.sync] }
  else
    match hash with
    | none => { data := st.data, ground := st.ground, effects := [Effect.sync] }
    | some h =>
      match st.ground.find? (fun g => decide (g.item.hash = some h)) with
      | none => { data := st.data, ground := st.ground, effects := [Effect.sync] }
      | some droppedItem =>
        if pickupTooFar env.pos droppedItem.position then
          { data := st.data, ground := st.ground, effects := [Effect.sync] }
        else if !env.allItemRulesValid droppedItem.item endKind (some endSlotIndex) then
          { data := st.data, ground := st.ground, effects := [Effect.sync] }
        else
          let ruleOk :=
            match pickupRuleFor endKind with
            | some dt => verifyRules env.rules dt droppedItem.item droppedItem.gridSpace (-1)
            | none => true
          if !ruleOk then
            { data := st.data, ground := st.ground, effects := [Effect.sync] }
          else if isFlagEnabled droppedItem.item.behavior ITEM_TYPE_IS_EQUIPMENT
              ∧ endKind = SlotKind.equipment
              ∧ droppedItem.item.dataSex ≠ some env.appearanceSex then
            { data := st.data, ground := st.ground, effects := [Effect.sync] }
          else
            let ground1 := removeFirstMatch (fun g => decide (g.item.hash = some h)) st.ground
            match containerAdd (cont st.data endKind) droppedItem.item endSlotIndex with
            | none => { data := st.data, ground := ground1, effects := [Effect.sync] }
            | some c1 =>
              { data := setCont st.data endKind c1, ground := ground1,
                effects := [Effect.save endKind, Effect.sync, Effect.sound "item_shuffle_1",
                  Effect.animation, Effect.serverObjectRemove h, Effect.serverItemRemove h] }

/-- `InventoryController.handleProcessPickup(player, hash)`: the convenience
pickup entry that auto-selects the first free personal storage slot. -/
def handleProcessPickup (env : Env) (st : St) (hash : Option String) : Res :=
  match getFreeInventorySlot env.invCap st.data.inventory with
  | none => { data := st.data, ground := st.ground, effects := [Effect.sync] }
  | some openSlot => handlePickupGround env st SlotKind.inventory openSlot hash

/-- Continuation of `processItemMovement` after the cross-kind rule gate:
the swap-or-stack branch when the destination is occupied, otherwise
placement checks and the remove-insert commit. -/
def moveAfterFirstGate (env : Env) (st : St) (selectedSlot endSlot : SlotId)
    (itemClone : Item) (wfx : List Effect) : Res :=
  match containerGet (cont st.data endSlot.kind) endSlot.index with
  | some endItemClone =>
    if selectedSlot.kind ≠ endSlot.kind then
      match getInventoryRule selectedSlot.kind endSlot.kind with
      | none =>
        { data := st.data, ground := st.ground, effects := wfx }
      | some rules =>
        if verifyRules env.rules rules.selected endItemClone endSlot.index selectedSlot.index then
          let r := handleSwapOrStack st selectedSlot endSlot
          { r with effects := wfx ++ r.effects }
        else
          { data := st.data, ground := st.ground, effects := wfx ++ [Effect.sync] }
    else
      let r := handleSwapOrStack st selectedSlot endSlot
      { r with effects := wfx ++ r.effects }
  | none =>
    if !env.allItemRulesValid itemClone endSlot.kind (some endSlot.index) then
      { data := st.data, ground := st.ground, effects := wfx ++ [Effect.sync] }
    else if isFlagEnabled itemClone.behavior ITEM_TYPE_IS_EQUIPMENT
        ∧ itemClone.dataSex ≠ some env.appearanceSex then
      { data := st.data, ground := st.ground, effects := wfx ++ [Effect.sync] }
    else
      match containerRemove (cont st.data selectedSlot.kind) itemClone.slot with
      | none => { data := st.data, ground := st.ground, effects := wfx ++ [Effect.sync] }
      | some c1 =>
        let d1 := setCont st.data selectedSlot.kind c1
        match containerAdd (cont d1 endSlot.kind) itemClone endSlot.index with
        | none => { data := d1, ground := st.ground, effects := wfx ++ [Effect.sync] }
        | some c2 =>
          { data := setCont d1 endSlot.kind c2, ground := st.ground,
            effects := wfx ++ [Effect.save selectedSlot.kind, Effect.save endSlot.kind,
              Effect.sync, Effect.sound "item_shuffle_1"] }

/-- Continuation of `processItemMovement` after the source item was read:
the cross-kind rule gate for the selected direction.  The source dereferences
`rules.selected` without a null check; the null case (unreachable, since both
kinds are owned and distinct there) is modelled as the thrown access, which
emits nothing further. -/
def moveAfterRead (env : Env) (st : St) (selectedSlot endSlot : SlotId)
    (itemClone : Item) (wfx : List Effect) : Res :=
  if selectedSlot.kind ≠ endSlot.kind then
    match getInventoryRule selectedSlot.kind endSlot.kind with
    | none =>
      { data := st.data, ground := st.ground, effects := wfx }
    | some rules =>
      if verifyRules env.rules rules.selected itemClone selectedSlot.index endSlot.index then
        moveAfterFirstGate env st selectedSlot endSlot itemClone wfx
      else
        { data := st.data, ground := st.ground, effects := wfx ++ [Effect.sync] }
  else
    moveAfterFirstGate env st selectedSlot endSlot itemClone wfx

/-- `InventoryController.processItemMovement(player, selectedSlot, endSlot, hash)`. -/
def processItemMovement (env : Env) (st : St) (selectedSlot endSlot : SlotId)
    (hash : Option String) : Res :=
  if env.valid = false then
    { data := st.data, ground := st.ground, effects := [] }
  else if selectedSlot = endSlot then
    { data := st.data, ground := st.ground, effects := [Effect.sync] }
  else
    let wfx := weaponFx selectedSlot endSlot
    if endSlot.kind = SlotKind.ground then
      let r := handleDropGround env st selectedSlot
      { r with effects := wfx ++ r.effects }
    else if selectedSlot.kind = SlotKind.ground then
      let r := handlePickupGround env st endSlot.kind endSlot.index hash
      { r with effects := wfx ++ r.effects }
    else
      match containerGet (cont st.data selectedSlot.kind) selectedSlot.index with
      | none => { data := st.data, ground := st.ground, effects := wfx ++ [Effect.sync] }
      | some itemClone => moveAfterRead env st selectedSlot endSlot itemClone wfx

/-- Equipment branch of `processUse`: toggle equip/unequip, displacing an
occupant of the target equipment slot back into the vacated personal storage
slot.  The results of `inventoryAdd` / `equipmentAdd` are not checked by the
source, so a failed insert leaves the state as it was at that point. -/
def useEquipment (env : Env) (st : St) (selectedSlot : SlotId) (item : Item)
    (eq : Int) : Res :=
  if selectedSlot.kind = SlotKind.toolbar then
    { data := st.data, ground := st.ground, effects := [Effect.sync] }
  else if selectedSlot.kind = SlotKind.equipment then
    match getFreeInventorySlot env.invCap st.data.inventory with
    | none => { data := st.data, ground := st.ground, effects := [Effect.sync] }
    | some openSlot =>
      match removeByEquipment st.data.equipment eq with
      | none => { data := st.data, ground := st.ground, effects := [Effect.sync] }
      | some e1 =>
        let d1 := { st.data with equipment := e1 }
        let d2 := match containerAdd d1.inventory item openSlot with
          | some c => { d1 with inventory := c }
          | none => d1
        { data := d2, ground := st.ground,
          effects := [Effect.save SlotKind.equipment, Effect.save SlotKind.inventory,
            Effect.sync] }
  else
    match containerRemove st.data.inventory item.slot with
    | none => { data := st.data, ground := st.ground, effects := [Effect.sync] }
    | some inv1 =>
      let d1 := { st.data with inventory := inv1 }
      match d1.equipment.find? (fun i => decide (i.equipment = some eq)) with
      | some removedItem =>
        match removeByEquipment d1.equipment eq with
        | none => { data := d1, ground := st.ground, effects := [Effect.sync] }
        | some e1 =>
          let d2 := { d1 with equipment := e1 }
          let d3 := match containerAdd d2.inventory removedItem item.slot with
            | some c => { d2 with inventory := c }
            | none => d2
          let d4 := match containerAdd d3.equipment item eq with
            | some c => { d3 with equipment := c }
            | none => d3
          { data := d4, ground := st.ground,
            effects := [Effect.save SlotKind.equipment, Effect.save SlotKind.inventory,
              Effect.sync] }
      | none =>
        let d4 := match containerAdd d1.equipment item eq with
          | some c => { d1 with equipment := c }
          | none => d1
        { data := d4, ground := st.ground,
          effects := [Effect.save SlotKind.equipment, Effect.save SlotKind.inventory,
            Effect.sync] }

/-- Consumable branch of `processUse`: requires the consumable flag; unless
the skip flag is set, decrements the cloned quantity, removing the inventory
record when it reaches zero and replacing it otherwise, then persists and
resynchronizes; finally, when the item data carries an event name, emits that
event with the (decremented) item and slot and plays the use cue. -/
def useConsumable (st : St) (slot : Int) (item : Item) : Res :=
  if !isFlagEnabled item.behavior ITEM_TYPE_CONSUMABLE then
    { data := st.data, ground := st.ground, effects := [Effect.sync] }
  else
    let skip := isFlagEnabled item.behavior ITEM_TYPE_SKIP_CONSUMABLE
    let item2 := if skip then item else { item with quantity := item.quantity - 1 }
    let stepData : PlayerData :=
      if skip then st.data
      else if item2.quantity ≤ 0 then
        match containerRemove st.data.inventory slot with
        | some c => { st.data with inventory := c }
        | none => st.data
      else
        { st.data with inventory := replaceInventoryItem st.data.inventory item2 }
    let fx1 : List Effect :=
      if skip then [] else [Effect.save SlotKind.inventory, Effect.sync]
    let fx2 : List Effect :=
      match item2.dataEvent with
      | some ev => [Effect.emitItemEvent ev item2 slot, Effect.sound "item_use"]
      | none => []
    { data := stepData, ground := st.ground, effects := fx1 ++ fx2 }

/-- `InventoryController.processUse(player, selectedSlot)`.  The null and
non-numeric slot identifier guards belong to the external parser and are
covered by the slot identifier model. -/
def processUse (env : Env) (st : St) (selectedSlot : SlotId) : Res :=
  let slot := selectedSlot.index
  match containerGet (cont st.data selectedSlot.kind) slot with
  | none => { data := st.data, ground := st.ground, effects := [Effect.sync] }
  | some originalItem =>
    match originalItem.equipment with
    | some eq => useEquipment env st selectedSlot originalItem eq
    | none => useConsumable st slot originalItem

/-- `InventoryController.processSplit(player, selectedSlot, amount)`. -/
def processSplit (env : Env) (st : St) (selectedSlot : SlotId) (amount : Int) : Res :=
  if amount ≤ 0 then
    { data := st.data, ground := st.ground, effects := [Effect.sync] }
  else if selectedSlot.kind ≠ SlotKind.inventory then
    { data := st.data, ground := st.ground, effects := [Effect.sync] }
  else
    let v := selectedSlot.index
    match st.data.inventory.find? (fun i => decide (i.slot = v)) with
    | none => { data := st.data, ground := st.ground, effects := [Effect.sync] }
    | some clonedItem =>
      match getFreeInventorySlot env.invCap st.data.inventory with
      | none => { data := st.data, ground := st.ground, effects := [Effect.sync] }
      | some freeSlot =>
        if clonedItem.quantity < amount then
          { data := st.data, ground := st.ground, effects := [Effect.sync] }
        else if amount ≥ clonedItem.quantity then
          { data := st.data, ground := st.ground, effects := [Effect.sync] }
        else
          let inv1 := st.data.inventory.map
            (fun i => if i.slot = v then { i with quantity := i.quantity - amount } else i)
          let newItem := { clonedItem with quantity := amount }
          let inv2 := match containerAdd inv1 newItem freeSlot with
            | some c => c
            | none => inv1
          { data := { st.data with inventory := inv2 }, ground := st.ground,
            effects := [Effect.save SlotKind.inventory, Effect.sync] }

/-! Helper lemmas about the container representation. -/

theorem find?_append_none {α : Type} (p : α → Bool) (l1 l2 : List α)
    (h : l1.find? p = none) : (l1 ++ l2).find? p = l2.find? p := by
  simp [List.find?_append, h]

theorem find?_append_some {α : Type} (p : α → Bool) (l1 l2 : List α) (a : α)
    (h : l1.find? p = some a) : (l1 ++ l2).find? p = some a := by
  simp [List.find?_append, h]

theorem any_slot_map (f : Item → Item) (hf : ∀ i, (f i).slot = i.slot)
    (c : List Item) (s : Int) :
    (c.map f).any (fun i => decide (i.slot = s)) = c.any (fun i => decide (i.slot = s)) := by
  induction c with
  | nil => rfl
  | cons x xs ih => simp [hf, ih]

theorem find?_slot_map (f : Item → Item) (hf : ∀ i, (f i).slot = i.slot)
    (c : List Item) (s : Int) :
    (c.map f).find? (fun i => decide (i.slot = s)) =
      (c.find? (fun i => decide (i.slot = s))).map f := by
  induction c with
  | nil => rfl
  | cons x xs ih =>
    by_cases hx : x.slot = s
    · rw [List.map_cons, List.find?_cons_of_pos, List.find?_cons_of_pos] <;>
        simp [hf, hx]
    · rw [List.map_cons, List.find?_cons_of_neg, List.find?_cons_of_neg, ih] <;>
        simp [hf, hx]

theorem find?_filter_slot_none (c : List Item) (s : Int) :
    (c.filter (fun i => !decide (i.slot = s))).find? (fun i => decide (i.slot = s)) = none := by
  rw [List.find?_eq_none]
  intro a ha
  have := (List.mem_filter.mp ha).2
  simp_all

/-- A concrete default item used by witnesses. -/
def sampleItem : Item :=
  { name := "apple", slot := 0, quantity := 1, behavior := 0, hash := none,
    equipment := none, dataSex := none, dataEvent := none, model := none }

/-- A concrete default environment used by witnesses. -/
def baseEnv : Env :=
  { valid := true, inVehicle := false, pos := ⟨0, 0, 0⟩, gridSpace := 0, dimension := 0,
    appearanceSex := 0, invCap := 4, rules := fun _ => [],
    allItemRulesValid := fun _ _ _ => true, mkHash := fun _ => "tok",
    frontPos := ⟨1, 0, 0⟩ }

/-- A rule callback that always rejects. -/
def predFalse : RulePred := fun _ _ _ _ => false

/-- A rule callback that always accepts. -/
def predTrue : RulePred := fun _ _ _ _ => true

/-- C6: for every transition kind and registered predicate list, verification
runs the callbacks strictly in registration order (the verdict on a nonempty
list is the head verdict gating the verdict on the tail), the first callback
returning false short-circuits (the overall verdict is false and does not
depend on the callbacks after it) and an empty predicate list yields success;
registration appends to the keyed list. -/
theorem c6_verify_order_shortcircuit_empty :
    ∀ (item : Item) (s e : Int) (r : INVENTORY_RULES) (p : RulePred)
      (ps ps2 : List RulePred),
      verifyList [] item s e r = true ∧
      (p item s e r = true →
        verifyList (p :: ps) item s e r = verifyList ps item s e r) ∧
      (p item s e r = false →
        verifyList (p :: ps) item s e r = false ∧
        verifyList (p :: ps) item s e r = verifyList (p :: ps2) item s e r) ∧
      (∀ (reg : RuleRegistry), (addRule reg r p).1 r = reg r ++ [p]) := by
  intro item s e r p ps ps2
  refine ⟨rfl, ?_, ?_, ?_⟩
  · intro h
    simp [verifyList, h]
  · intro h
    constructor <;> simp [verifyList, h]
  · intro reg
    simp [addRule]

/-- Witness for C6 at a concrete registry: the empty list verifies and a
rejecting head makes the verdict false. -/
theorem c6_witness :
    verifyList [] sampleItem 0 1 INVENTORY_RULES.FROM_INVENTORY_TO_TOOLBAR = true ∧
    verifyList [predFalse, predTrue] sampleItem 0 1
      INVENTORY_RULES.FROM_INVENTORY_TO_TOOLBAR = false :=
  ⟨(c6_verify_order_shortcircuit_empty sampleItem 0 1
      INVENTORY_RULES.FROM_INVENTORY_TO_TOOLBAR predFalse [predTrue] []).1,
   ((c6_verify_order_shortcircuit_empty sampleItem 0 1
      INVENTORY_RULES.FROM_INVENTORY_TO_TOOLBAR predFalse [predTrue] []).2.2.1 rfl).1⟩

/-- C10: the pickup distance guard reads only the horizontal components of
the two positions: replacing either vertical coordinate leaves the guard
unchanged, and positions within 10 units in the horizontal plane pass the
guard. -/
theorem c10_distance_guard_planar :
    ∀ (a b : Pos) (z z2 : Rat),
      pickupTooFar ⟨a.x, a.y, z⟩ ⟨b.x, b.y, z2⟩ = pickupTooFar a b ∧
      (distance2dSq a b < 100 → pickupTooFar a b = false) := by
  intro a b z z2
  constructor
  · rfl
  · intro h
    simp only [pickupTooFar, decide_eq_false_iff_not, not_le]
    exact h

/-- Witness for C10: two positions 5 planar units apart but 1000 vertical
units apart pass the guard. -/
theorem c10_witness :
    pickupTooFar ⟨0, 0, 0⟩ ⟨3, 4, 1000⟩ = false :=
  (c10_distance_guard_planar ⟨0, 0, 0⟩ ⟨3, 4, 1000⟩ 0 1000).2 (by norm_num [distance2dSq])

/-- C5: a pickup request whose resolved dropped item lies at distance at
least 10 from the actor is rejected: the ground store and both player
containers are unchanged and the only emitted effect is the
resynchronization. -/
theorem c5_pickup_distance_reject :
    ∀ (env : Env) (st : St) (endKind : SlotKind) (endSlotIndex : Int) (h : String)
      (gi : DroppedItem),
      st.ground.find? (fun g => decide (g.item.hash = some h)) = some gi →
      pickupTooFar env.pos gi.position = true →
      handlePickupGround env st endKind endSlotIndex (some h) =
        { data := st.data, ground := st.ground, effects := [Effect.sync] } := by
  intro env st k i h gi hfind hfar
  unfold handlePickupGround
  split
  · rfl
  · split
    · rfl
    · simp only [hfind, hfar, if_true]

/-- Witness for C5: a dropped item 20 units away stays on the ground and the
request resynchronizes only. -/
theorem c5_witness :
    handlePickupGround baseEnv
      { data := { inventory := [], equipment := [], toolbar := [] },
        ground := [{ gridSpace := 0, item := { sampleItem with hash := some "far" },
                     position := ⟨20, 0, 0⟩, dimension := 0 }] }
      SlotKind.inventory 0 (some "far") =
      { data := { inventory := [], equipment := [], toolbar := [] },
        ground := [{ gridSpace := 0, item := { sampleItem with hash := some "far" },
                     position := ⟨20, 0, 0⟩, dimension := 0 }],
        effects := [Effect.sync] } :=
  c5_pickup_distance_reject baseEnv _ SlotKind.inventory 0 "far"
    { gridSpace := 0, item := { sampleItem with hash := some "far" },
      position := ⟨20, 0, 0⟩, dimension := 0 }
    (by rfl) (by norm_num [pickupTooFar, distance2dSq, baseEnv])

/-- C9: dropping an item flagged destroyed-on-drop removes it from the source
container and persists that container, and creates no ground record: the
ground store is unchanged and the effect trace contains no streamer
registration and no dropped-item domain event, only the save, the
resynchronization, the drop sound and the destruction animation and
notification. -/
theorem c9_destroy_on_drop :
    ∀ (env : Env) (st : St) (ss : SlotId) (it : Item) (dt : INVENTORY_RULES),
      ss.kind ≠ SlotKind.ground →
      env.inVehicle = false →
      containerGet (cont st.data ss.kind) ss.index = some it →
      isFlagEnabled it.behavior ITEM_TYPE_CAN_DROP = true →
      env.allItemRulesValid it SlotKind.ground none = true →
      dropRuleFor ss.kind = some dt →
      verifyRules env.rules dt it ss.index (-1) = true →
      isFlagEnabled it.behavior ITEM_TYPE_DESTROY_ON_DROP = true →
      handleDropGround env st ss =
        { data := setCont st.data ss.kind
            ((cont st.data ss.kind).filter (fun i => !decide (i.slot = it.slot))),
          ground := st.ground,
          effects := [Effect.save ss.kind, Effect.sync, Effect.sound "item_drop_1",
            Effect.animation,
            Effect.message (it.name ++ " was destroyed on drop.")] } := by
  intro env st ss it dt hk hv hget hdrop hpolicy hdt hrule hdestroy
  have hmem : it ∈ cont st.data ss.kind :=
    List.mem_of_find?_eq_some (by simpa [containerGet] using hget)
  have hfind : (cont st.data ss.kind).find? (fun i => decide (i.slot = ss.index)) = some it := by
    simpa [containerGet] using hget
  have hslot : it.slot = ss.index := by simpa using List.find?_some hfind
  have hany : (cont st.data ss.kind).any (fun i => decide (i.slot = it.slot)) = true :=
    List.any_eq_true.mpr ⟨it, hmem, by simp⟩
  unfold handleDropGround
  rw [if_neg hk]
  simp only [hv, Bool.false_eq_true, if_false, hget, hdrop, hpolicy, hdt, hrule,
    Bool.not_true, if_false, containerRemove, hany, if_true, hdestroy, if_true]
  rfl

/-- Witness for C9 at a concrete inventory: the flagged item disappears from
personal storage and no ground record appears. -/
theorem c9_witness :
    handleDropGround baseEnv
      { data := { inventory := [{ sampleItem with behavior := 17 }], equipment := [],
                  toolbar := [] }, ground := [] }
      ⟨SlotKind.inventory, 0⟩ =
      { data := { inventory := [], equipment := [], toolbar := [] }, ground := [],
        effects := [Effect.save SlotKind.inventory, Effect.sync,
          Effect.sound "item_drop_1", Effect.animation,
          Effect.message "apple was destroyed on drop."] } := by
  have := c9_destroy_on_drop baseEnv
    { data := { inventory := [{ sampleItem with behavior := 17 }], equipment := [],
                toolbar := [] }, ground := [] }
    ⟨SlotKind.inventory, 0⟩ { sampleItem with behavior := 17 }
    INVENTORY_RULES.FROM_INVENTORY_TO_GROUND
    (by decide) rfl (by rfl) (by decide) rfl rfl rfl (by decide)
  simpa using this

/-- Environment whose toolbar-to-inventory transition rule rejects. -/
def envC2 : Env :=
  { baseEnv with rules := fun r =>
      if r = INVENTORY_RULES.FROM_TOOLBAR_TO_INVENTORY then [predFalse] else [] }

/-- State with one toolbar item for the C2 counterexample. -/
def stC2 : St :=
  { data := { inventory := [], equipment := [], toolbar := [sampleItem] }, ground := [] }

/-- C2 counterexample: a toolbar-to-inventory move whose transition rule
rejects leaves the containers and ground untouched, but its effect trace is
not resynchronization alone: the wielded-weapon clearing fired before the
rule ran. -/
theorem c2_counterexample :
    verifyRules envC2.rules INVENTORY_RULES.FROM_TOOLBAR_TO_INVENTORY sampleItem 0 1 = false ∧
    processItemMovement envC2 stC2 ⟨SlotKind.toolbar, 0⟩ ⟨SlotKind.inventory, 1⟩ none =
      { data := stC2.data, ground := [],
        effects := [Effect.removeAllWeapons, Effect.sync] } ∧
    (processItemMovement envC2 stC2 ⟨SlotKind.toolbar, 0⟩ ⟨SlotKind.inventory, 1⟩ none).effects
      ≠ [Effect.sync] := by
  refine ⟨rfl, rfl, ?_⟩
  decide

/-- C2 (amended): whenever the transition-rule verification consulted by a
move or drop request returns false — the cross-kind gate on the moved item,
the swap gate on the occupying item, or the drop gate — the request aborts
with containers, ground store and persisted fields unchanged, and the only
effects are the resynchronization and, for a move out of the toolbar to a
non-toolbar destination, the wielded-weapon clearing that precedes the rule
check. -/
theorem c2_rule_failure_abort :
    ∀ (env : Env) (st : St) (ss es : SlotId) (hsh : Option String) (it endIt : Item)
      (rp : RulePair) (dt : INVENTORY_RULES),
      (env.valid = true → ss ≠ es → es.kind ≠ SlotKind.ground → ss.kind ≠ SlotKind.ground →
        containerGet (cont st.data ss.kind) ss.index = some it →
        ss.kind ≠ es.kind →
        getInventoryRule ss.kind es.kind = some rp →
        verifyRules env.rules rp.selected it ss.index es.index = false →
        processItemMovement env st ss es hsh =
          { data := st.data, ground := st.ground,
            effects := weaponFx ss es ++ [Effect.sync] }) ∧
      (env.valid = true → ss ≠ es → es.kind ≠ SlotKind.ground → ss.kind ≠ SlotKind.ground →
        containerGet (cont st.data ss.kind) ss.index = some it →
        ss.kind ≠ es.kind →
        getInventoryRule ss.kind es.kind = some rp →
        verifyRules env.rules rp.selected it ss.index es.index = true →
        containerGet (cont st.data es.kind) es.index = some endIt →
        verifyRules env.rules rp.selected endIt es.index ss.index = false →
        processItemMovement env st ss es hsh =
          { data := st.data, ground := st.ground,
            effects := weaponFx ss es ++ [Effect.sync] }) ∧
      (ss.kind ≠ SlotKind.ground →
        env.inVehicle = false →
        containerGet (cont st.data ss.kind) ss.index = some it →
        isFlagEnabled it.behavior ITEM_TYPE_CAN_DROP = true →
        env.allItemRulesValid it SlotKind.ground none = true →
        dropRuleFor ss.kind = some dt →
        verifyRules env.rules dt it ss.index (-1) = false →
        handleDropGround env st ss =
          { data := st.data, ground := st.ground, effects := [Effect.sync] }) := by
  intro env st ss es hsh it endIt rp dt
  refine ⟨?_, ?_, ?_⟩
  · intro hvalid hne hesg hssg hget hkinds hrp hv
    unfold processItemMovement
    simp only [hvalid, Bool.true_eq_false, if_false]
    rw [if_neg hne, if_neg hesg, if_neg hssg]
    simp only [hget]
    unfold moveAfterRead
    rw [if_pos hkinds]
    simp only [hrp, hv, Bool.false_eq_true, if_false]
  · intro hvalid hne hesg hssg hget hkinds hrp hv1 hgetEnd hv2
    unfold processItemMovement
    simp only [hvalid, Bool.true_eq_false, if_false]
    rw [if_neg hne, if_neg hesg, if_neg hssg]
    simp only [hget]
    unfold moveAfterRead
    rw [if_pos hkinds]
    simp only [hrp, hv1, if_true]
    unfold moveAfterFirstGate
    simp only [hgetEnd]
    rw [if_pos hkinds]
    simp only [hrp, hv2, Bool.false_eq_true, if_false]
  · intro hkg hveh hget hcandrop hpolicy hdt hrule
    unfold handleDropGround
    rw [if_neg hkg]
    simp only [hveh, Bool.false_eq_true, if_false, hget, hcandrop, Bool.not_true,
      hpolicy, hdt, hrule, Bool.not_false, if_true, if_false]

/-- Witness for C2 at the concrete counterexample input: the amended abort
shape holds for the rejected toolbar-to-inventory move. -/
theorem c2_witness :
    processItemMovement envC2 stC2 ⟨SlotKind.toolbar, 0⟩ ⟨SlotKind.inventory, 1⟩ none =
      { data := stC2.data, ground := [],
        effects := weaponFx ⟨SlotKind.toolbar, 0⟩ ⟨SlotKind.inventory, 1⟩ ++ [Effect.sync] } :=
  (c2_rule_failure_abort envC2 stC2 ⟨SlotKind.toolbar, 0⟩ ⟨SlotKind.inventory, 1⟩ none
      sampleItem sampleItem
      ⟨INVENTORY_RULES.FROM_TOOLBAR_TO_INVENTORY, INVENTORY_RULES.FROM_INVENTORY_TO_TOOLBAR⟩
      INVENTORY_RULES.FROM_TOOLBAR_TO_GROUND).1
    rfl (by decide) (by decide) (by decide) rfl (by decide) rfl rfl

/-! Helper lemmas for the synchronization claim. -/

theorem getInventoryRule_isSome (a b : SlotKind) (hne : a ≠ b)
    (ha : a ≠ SlotKind.ground) (hb : b ≠ SlotKind.ground) :
    (getInventoryRule a b).isSome := by
  cases a <;> cases b <;> simp_all [getInventoryRule]

theorem sync_mem_swapOrStack (st : St) (ss es : SlotId) :
    Effect.sync ∈ (handleSwapOrStack st ss es).effects := by
  unfold handleSwapOrStack
  dsimp only
  repeat' split
  all_goals simp

theorem sync_mem_dropGround (env : Env) (st : St) (ss : SlotId) :
    Effect.sync ∈ (handleDropGround env st ss).effects := by
  unfold handleDropGround
  dsimp only
  repeat' split
  all_goals simp

theorem sync_mem_pickupGround (env : Env) (st : St) (k : SlotKind) (i : Int)
    (hash : Option String) :
    Effect.sync ∈ (handlePickupGround env st k i hash).effects := by
  unfold handlePickupGround
  dsimp only
  repeat' split
  all_goals simp

theorem sync_mem_useEquipment (env : Env) (st : St) (ss : SlotId) (it : Item) (eq : Int) :
    Effect.sync ∈ (useEquipment env st ss it eq).effects := by
  unfold useEquipment
  dsimp only
  repeat' split
  all_goals simp

theorem sync_mem_moveAfterFirstGate (env : Env) (st : St) (ss es : SlotId) (it : Item)
    (wfx : List Effect) (hss : ss.kind ≠ SlotKind.ground) (hes : es.kind ≠ SlotKind.ground) :
    Effect.sync ∈ (moveAfterFirstGate env st ss es it wfx).effects := by
  unfold moveAfterFirstGate
  dsimp only
  repeat' split
  all_goals try simp [List.mem_append, sync_mem_swapOrStack]
  all_goals
    exfalso
    have hsome := getInventoryRule_isSome ss.kind es.kind (by assumption) hss hes
    simp_all

theorem sync_mem_moveAfterRead (env : Env) (st : St) (ss es : SlotId) (it : Item)
    (wfx : List Effect) (hss : ss.kind ≠ SlotKind.ground) (hes : es.kind ≠ SlotKind.ground) :
    Effect.sync ∈ (moveAfterRead env st ss es it wfx).effects := by
  unfold moveAfterRead
  repeat' split
  all_goals try simp [List.mem_append, sync_mem_moveAfterFirstGate env st ss es it wfx hss hes]
  all_goals
    exfalso
    have hsome := getInventoryRule_isSome ss.kind es.kind (by assumption) hss hes
    simp_all

/-- Environment with an invalid actor handle. -/
def envInvalid : Env := { baseEnv with valid := false }

/-- State holding a consumable item whose skip-consumption flag is set. -/
def stSkip : St :=
  { data := { inventory := [{ sampleItem with behavior := 12 }], equipment := [],
              toolbar := [] }, ground := [] }

/-- Empty concrete state. -/
def st0 : St := { data := { inventory := [], equipment := [], toolbar := [] }, ground := [] }

/-- C3 counterexample: the move entry invoked with an invalid actor handle
emits nothing, and using a consumable whose skip-consumption flag is set
emits nothing either — two execution paths that end without invoking the
synchronization collaborator. -/
theorem c3_counterexample :
    (processItemMovement envInvalid st0 ⟨SlotKind.inventory, 0⟩ ⟨SlotKind.toolbar, 0⟩
      none).effects = [] ∧
    (processUse baseEnv stSkip ⟨SlotKind.inventory, 0⟩).effects = [] :=
  ⟨rfl, rfl⟩

/-- C3 (amended): every invocation of the four entry points invokes the
synchronization collaborator on every branch, except the initial
invalid-actor guard of the move entry and the use of a consumable item whose
skip-consumption flag is set (which emits only the item-used event, if
any). -/
theorem c3_terminal_sync :
    ∀ (env : Env) (st : St) (ss es : SlotId) (hsh : Option String) (amount : Int),
      (env.valid = true →
        Effect.sync ∈ (processItemMovement env st ss es hsh).effects) ∧
      Effect.sync ∈ (processSplit env st ss amount).effects ∧
      Effect.sync ∈ (handleProcessPickup env st hsh).effects ∧
      (Effect.sync ∈ (processUse env st ss).effects ∨
        ∃ it, containerGet (cont st.data ss.kind) ss.index = some it ∧
          it.equipment = none ∧
          isFlagEnabled it.behavior ITEM_TYPE_CONSUMABLE = true ∧
          isFlagEnabled it.behavior ITEM_TYPE_SKIP_CONSUMABLE = true) := by
  intro env st ss es hsh amount
  refine ⟨?_, ?_, ?_, ?_⟩
  · intro hvalid
    unfold processItemMovement
    simp only [hvalid, Bool.true_eq_false, if_false]
    split
    · simp
    · split
      · simp [List.mem_append, sync_mem_dropGround]
      · split
        · simp [List.mem_append, sync_mem_pickupGround]
        · split
          · simp
          · exact sync_mem_moveAfterRead env st ss es _ _ (by assumption) (by assumption)
  · unfold processSplit
    split
    · simp
    · split
      · simp
      · dsimp only
        cases hf : List.find? (fun i => decide (i.slot = ss.index)) st.data.inventory with
        | none => simp [hf]
        | some clonedItem =>
          simp only [hf]
          cases hfs : getFreeInventorySlot env.invCap st.data.inventory with
          | none => simp
          | some freeSlot =>
            dsimp only
            split
            · simp
            · split <;> simp
  · unfold handleProcessPickup
    split
    · simp
    · exact sync_mem_pickupGround env st SlotKind.inventory _ hsh
  · cases hc : containerGet (cont st.data ss.kind) ss.index with
    | none =>
      left
      unfold processUse
      simp [hc]
    | some it =>
      cases he : it.equipment with
      | some eq =>
        left
        unfold processUse
        simp only [hc, he]
        exact sync_mem_useEquipment env st ss it eq
      | none =>
        unfold processUse
        simp only [hc, he]
        unfold useConsumable
        cases hcons : isFlagEnabled it.behavior ITEM_TYPE_CONSUMABLE with
        | false => left; simp [hcons]
        | true =>
          cases hskip : isFlagEnabled it.behavior ITEM_TYPE_SKIP_CONSUMABLE with
          | true => right; exact ⟨it, rfl, he, hcons, hskip⟩
          | false =>
            left
            simp [hcons, hskip, List.mem_append]

/-- Witness for C3 at concrete inputs: a valid move request, a split request
and a convenience pickup request all resynchronize. -/
theorem c3_witness :
    Effect.sync ∈ (processItemMovement baseEnv st0 ⟨SlotKind.inventory, 0⟩
      ⟨SlotKind.toolbar, 1⟩ none).effects ∧
    Effect.sync ∈ (processSplit baseEnv st0 ⟨SlotKind.inventory, 0⟩ 1).effects ∧
    Effect.sync ∈ (handleProcessPickup baseEnv st0 none).effects :=
  ⟨(c3_terminal_sync baseEnv st0 ⟨SlotKind.inventory, 0⟩ ⟨SlotKind.toolbar, 1⟩ none 1).1 rfl,
   (c3_terminal_sync baseEnv st0 ⟨SlotKind.inventory, 0⟩ ⟨SlotKind.toolbar, 1⟩ none 1).2.1,
   (c3_terminal_sync baseEnv st0 ⟨SlotKind.inventory, 0⟩ ⟨SlotKind.toolbar, 1⟩ none 1).2.2.1⟩

/-- Environment whose toolbar-to-inventory rule rejects while the
inventory-to-toolbar rule list is empty (accepting). -/
def envC1 : Env :=
  { baseEnv with rules := fun r =>
      if r = INVENTORY_RULES.FROM_TOOLBAR_TO_INVENTORY then [predFalse] else [] }

/-- Item occupying inventory slot 0 in the C1 scenario. -/
def itemA : Item := { sampleItem with name := "alpha", slot := 0 }

/-- Item occupying toolbar slot 1 in the C1 scenario. -/
def itemB : Item := { sampleItem with name := "beta", slot := 1 }

/-- State for the C1 scenario: both slots of the swap are occupied. -/
def stC1 : St :=
  { data := { inventory := [itemA], equipment := [], toolbar := [itemB] }, ground := [] }

/-- C1 evaluated at the failing input: for the swap of inventory slot 0 with
occupied toolbar slot 1, the reverse rule (toolbar to inventory, the rule
`getInventoryRule` returns in its second field) rejects the occupying item,
yet both items move: the orchestrator re-verifies the forward rule on the
occupying item instead of the reverse rule, so the rejection is never seen. -/
theorem c1_swap_skips_reverse_rule :
    verifyRules envC1.rules INVENTORY_RULES.FROM_TOOLBAR_TO_INVENTORY itemB 1 0 = false ∧
    getInventoryRule SlotKind.inventory SlotKind.toolbar =
      some ⟨INVENTORY_RULES.FROM_INVENTORY_TO_TOOLBAR,
            INVENTORY_RULES.FROM_TOOLBAR_TO_INVENTORY⟩ ∧
    containerGet (processItemMovement envC1 stC1 ⟨SlotKind.inventory, 0⟩
      ⟨SlotKind.toolbar, 1⟩ none).data.inventory 0 = some { itemB with slot := 0 } ∧
    containerGet (processItemMovement envC1 stC1 ⟨SlotKind.inventory, 0⟩
      ⟨SlotKind.toolbar, 1⟩ none).data.toolbar 1 = some { itemA with slot := 1 } :=
  ⟨rfl, rfl, rfl, rfl⟩

/-- Environment whose ground-to-equipment rule rejects everything. -/
def envC4 : Env :=
  { baseEnv with rules := fun r =>
      if r = INVENTORY_RULES.FROM_GROUND_TO_EQUIPMENT then [predFalse] else [] }

/-- A dropped item near the origin for the C4 scenario. -/
def droppedC4 : DroppedItem :=
  { gridSpace := 0, item := { sampleItem with hash := some "h1", slot := 5 },
    position := ⟨1, 0, 0⟩, dimension := 0 }

/-- State for the C4 scenario: one tracked dropped item, empty containers. -/
def stC4 : St :=
  { data := { inventory := [], equipment := [], toolbar := [] }, ground := [droppedC4] }

/-- C4 evaluated at the failing input: picking up into an equipment slot
never consults the ground-to-equipment rule (the destination-kind dispatch
tests the ground abbreviation where equipment was intended, so no rule is
selected), and the pickup succeeds although that rule rejects everything:
the dropped item leaves the ground store and lands in the equipment
container. -/
theorem c4_equipment_pickup_skips_rule :
    verifyRules envC4.rules INVENTORY_RULES.FROM_GROUND_TO_EQUIPMENT droppedC4.item 0 (-1)
      = false ∧
    pickupRuleFor SlotKind.equipment = none ∧
    (handlePickupGround envC4 stC4 SlotKind.equipment 2 (some "h1")).ground = [] ∧
    containerGet (handlePickupGround envC4 stC4 SlotKind.equipment 2
      (some "h1")).data.equipment 2 = some { droppedC4.item with slot := 2 } := by
  have hfar : pickupTooFar envC4.pos droppedC4.position = false := by
    norm_num [pickupTooFar, distance2dSq, envC4, baseEnv, droppedC4]
  refine ⟨rfl, rfl, ?_, ?_⟩ <;>
    · unfold handlePickupGround
      simp only [show (stC4.ground.find? (fun g => decide (g.item.hash = some "h1"))
          = some droppedC4) from rfl, hfar, Bool.false_eq_true, if_false]
      rfl

/-- C7: split is accepted only from a personal storage slot holding an item,
with a positive amount strictly below the stack quantity and a free personal
storage slot available; rejections (nonpositive amount, wrong container, no
item, no free slot, amount at least the stack quantity) resynchronize with no
mutation; on success the source stack decreases by the amount and a new stack
of exactly the amount occupies a distinct free slot, with the container
persisted. -/
theorem c7_split_rules :
    ∀ (env : Env) (st : St) (ss : SlotId) (amount : Int) (orig : Item) (freeSlot : Int),
      (amount ≤ 0 →
        processSplit env st ss amount =
          { data := st.data, ground := st.ground, effects := [Effect.sync] }) ∧
      (ss.kind ≠ SlotKind.inventory →
        processSplit env st ss amount =
          { data := st.data, ground := st.ground, effects := [Effect.sync] }) ∧
      (ss.kind = SlotKind.inventory →
        st.data.inventory.find? (fun i => decide (i.slot = ss.index)) = none →
        processSplit env st ss amount =
          { data := st.data, ground := st.ground, effects := [Effect.sync] }) ∧
      (ss.kind = SlotKind.inventory →
        st.data.inventory.find? (fun i => decide (i.slot = ss.index)) = some orig →
        getFreeInventorySlot env.invCap st.data.inventory = none →
        processSplit env st ss amount =
          { data := st.data, ground := st.ground, effects := [Effect.sync] }) ∧
      (ss.kind = SlotKind.inventory →
        st.data.inventory.find? (fun i => decide (i.slot = ss.index)) = some orig →
        0 < amount → orig.quantity ≤ amount →
        processSplit env st ss amount =
          { data := st.data, ground := st.ground, effects := [Effect.sync] }) ∧
      (ss.kind = SlotKind.inventory →
        st.data.inventory.find? (fun i => decide (i.slot = ss.index)) = some orig →
        getFreeInventorySlot env.invCap st.data.inventory = some freeSlot →
        0 < amount → amount < orig.quantity →
        freeSlot ≠ ss.index ∧
        (processSplit env st ss amount).ground = st.ground ∧
        (processSplit env st ss amount).effects = [Effect.save SlotKind.inventory, Effect.sync] ∧
        containerGet (processSplit env st ss amount).data.inventory ss.index =
          some { orig with quantity := orig.quantity - amount } ∧
        containerGet (processSplit env st ss amount).data.inventory freeSlot =
          some { orig with quantity := amount, slot := freeSlot }) := by
  intro env st ss amount orig freeSlot
  refine ⟨?_, ?_, ?_, ?_, ?_, ?_⟩
  · intro h
    unfold processSplit
    rw [if_pos h]
  · intro h
    unfold processSplit
    by_cases ha : amount ≤ 0
    · rw [if_pos ha]
    · rw [if_neg ha, if_pos h]
  · intro hk hf
    unfold processSplit
    by_cases ha : amount ≤ 0
    · rw [if_pos ha]
    · rw [if_neg ha, if_neg (show ¬ ss.kind ≠ SlotKind.inventory by simp [hk])]
      dsimp only
      simp only [hf]
  · intro hk hf hfree
    unfold processSplit
    by_cases ha : amount ≤ 0
    · rw [if_pos ha]
    · rw [if_neg ha, if_neg (show ¬ ss.kind ≠ SlotKind.inventory by simp [hk])]
      dsimp only
      simp only [hf, hfree]
  · intro hk hf hpos hle
    unfold processSplit
    rw [if_neg (show ¬ amount ≤ 0 by omega),
      if_neg (show ¬ ss.kind ≠ SlotKind.inventory by simp [hk])]
    dsimp only
    simp only [hf]
    cases hfs : getFreeInventorySlot env.invCap st.data.inventory with
    | none => simp only [hfs]
    | some f2 =>
      simp only [hfs]
      by_cases hq : orig.quantity < amount
      · rw [if_pos hq]
      · rw [if_neg hq, if_pos (show amount ≥ orig.quantity from hle)]
  · intro hk hf hfree hpos hlt
    have hmem : orig ∈ st.data.inventory := List.mem_of_find?_eq_some hf
    have hslot : orig.slot = ss.index := by simpa using List.find?_some hf
    have hanyfree : st.data.inventory.any (fun i => decide (i.slot = freeSlot)) = false := by
      simpa using List.find?_some hfree
    have hne : freeSlot ≠ ss.index := by
      intro hcontra
      have hx : st.data.inventory.any (fun i => decide (i.slot = freeSlot)) = true :=
        List.any_eq_true.mpr ⟨orig, hmem, by simp [hslot, hcontra]⟩
      rw [hx] at hanyfree
      cases hanyfree
    have hpres : ∀ i : Item,
        ((fun i : Item => if i.slot = ss.index
          then { i with quantity := i.quantity - amount } else i) i).slot = i.slot := by
      intro i
      by_cases hi : i.slot = ss.index <;> simp [hi]
    have hmap1 : (st.data.inventory.map (fun i => if i.slot = ss.index
        then { i with quantity := i.quantity - amount } else i)).any
        (fun i => decide (i.slot = freeSlot)) = false := by
      rw [any_slot_map _ hpres]
      exact hanyfree
    have hres : processSplit env st ss amount =
        { data := { st.data with inventory :=
            (st.data.inventory.map (fun i => if i.slot = ss.index
              then { i with quantity := i.quantity - amount } else i))
              ++ [{ orig with quantity := amount, slot := freeSlot }] },
          ground := st.ground,
          effects := [Effect.save SlotKind.inventory, Effect.sync] } := by
      unfold processSplit
      rw [if_neg (show ¬ amount ≤ 0 by omega),
        if_neg (show ¬ ss.kind ≠ SlotKind.inventory by simp [hk])]
      dsimp only
      simp only [hf, hfree]
      rw [if_neg (show ¬ orig.quantity < amount by omega),
        if_neg (show ¬ amount ≥ orig.quantity by omega)]
      simp only [containerAdd, hmap1, Bool.false_eq_true, if_false]
    refine ⟨hne, ?_, ?_, ?_, ?_⟩
    · rw [hres]
    · rw [hres]
    · rw [hres]
      unfold containerGet
      have h1 : (st.data.inventory.map (fun i => if i.slot = ss.index
          then { i with quantity := i.quantity - amount } else i)).find?
          (fun i => decide (i.slot = ss.index)) =
          some { orig with quantity := orig.quantity - amount } := by
        rw [find?_slot_map _ hpres, hf]
        simp [hslot]
      exact find?_append_some _ _ _ _ h1
    · rw [hres]
      unfold containerGet
      have h0 : (st.data.inventory.map (fun i => if i.slot = ss.index
          then { i with quantity := i.quantity - amount } else i)).find?
          (fun i => decide (i.slot = freeSlot)) = none := by
        rw [List.find?_eq_none]
        intro a ha
        have hx := List.any_eq_false.mp hmap1 a ha
        simpa using hx
      rw [find?_append_none _ _ _ h0]
      rw [List.find?_cons_of_pos _ (by simp)]

/-- Witness for C7: splitting a stack of 10 by 4 yields stacks of 6 and 4 in
distinct slots, and splitting by 10 or more resynchronizes only. -/
theorem c7_witness :
    (1 : Int) ≠ 0 ∧
    containerGet (processSplit baseEnv
      { data := { inventory := [{ sampleItem with quantity := 10 }], equipment := [],
                  toolbar := [] }, ground := [] } ⟨SlotKind.inventory, 0⟩ 4).data.inventory 0 =
      some { sampleItem with quantity := 6 } ∧
    containerGet (processSplit baseEnv
      { data := { inventory := [{ sampleItem with quantity := 10 }], equipment := [],
                  toolbar := [] }, ground := [] } ⟨SlotKind.inventory, 0⟩ 4).data.inventory 1 =
      some { sampleItem with quantity := 4, slot := 1 } ∧
    processSplit baseEnv
      { data := { inventory := [{ sampleItem with quantity := 10 }], equipment := [],
                  toolbar := [] }, ground := [] } ⟨SlotKind.inventory, 0⟩ 10 =
      { data := { inventory := [{ sampleItem with quantity := 10 }], equipment := [],
                  toolbar := [] }, ground := [],
        effects := [Effect.sync] } := by
  have h6 := (c7_split_rules baseEnv
      { data := { inventory := [{ sampleItem with quantity := 10 }], equipment := [],
                  toolbar := [] }, ground := [] } ⟨SlotKind.inventory, 0⟩ 4
      { sampleItem with quantity := 10 } 1).2.2.2.2.2
    rfl rfl rfl (by decide) (by decide)
  have h10 := (c7_split_rules baseEnv
      { data := { inventory := [{ sampleItem with quantity := 10 }], equipment := [],
                  toolbar := [] }, ground := [] } ⟨SlotKind.inventory, 0⟩ 10
      { sampleItem with quantity := 10 } 1).2.2.2.2.1
    rfl rfl (by decide) (by decide)
  exact ⟨h6.1, h6.2.2.2.1, h6.2.2.2.2, h10⟩

/-- A consumable (non-skip) item of quantity 1 sitting in the toolbar. -/
def itemToolCons : Item := { sampleItem with behavior := 4, quantity := 1 }

/-- State holding the toolbar consumable for the C8 counterexample. -/
def stC8 : St :=
  { data := { inventory := [], equipment := [], toolbar := [itemToolCons] }, ground := [] }

/-- C8 counterexample: using a non-equipment consumable of quantity 1 held in
a toolbar slot does not remove it from its slot — the decrement and removal
are applied to the personal storage container instead, so the toolbar record
survives unchanged. -/
theorem c8_counterexample :
    itemToolCons.equipment = none ∧
    isFlagEnabled itemToolCons.behavior ITEM_TYPE_CONSUMABLE = true ∧
    isFlagEnabled itemToolCons.behavior ITEM_TYPE_SKIP_CONSUMABLE = false ∧
    itemToolCons.quantity = 1 ∧
    (processUse baseEnv stC8 ⟨SlotKind.toolbar, 0⟩).data.toolbar = [itemToolCons] :=
  ⟨rfl, rfl, rfl, rfl, rfl⟩

/-- C8 (amended): for every use of a non-equipment item held in a personal
storage slot, the consumable flag is required (without it the request only
resynchronizes); unless the skip-consumption flag is set the quantity is
decremented by exactly one in place (using quantity 1 removes the record from
the slot, larger quantities stay in the same slot with one unit less) with
the container persisted and resynchronized; when the item payload carries an
event name, the item-used event with the (decremented) item and the slot is
emitted.  For items held outside personal storage the decrement and removal
are applied to the personal storage container, not the holding slot. -/
theorem c8_use_consumable_personal_storage :
    ∀ (env : Env) (st : St) (idx : Int) (it : Item),
      containerGet st.data.inventory idx = some it →
      it.equipment = none →
      (isFlagEnabled it.behavior ITEM_TYPE_CONSUMABLE = false →
        processUse env st ⟨SlotKind.inventory, idx⟩ =
          { data := st.data, ground := st.ground, effects := [Effect.sync] }) ∧
      (isFlagEnabled it.behavior ITEM_TYPE_CONSUMABLE = true →
        isFlagEnabled it.behavior ITEM_TYPE_SKIP_CONSUMABLE = true →
        (processUse env st ⟨SlotKind.inventory, idx⟩).data = st.data) ∧
      (isFlagEnabled it.behavior ITEM_TYPE_CONSUMABLE = true →
        isFlagEnabled it.behavior ITEM_TYPE_SKIP_CONSUMABLE = false →
        (it.quantity ≤ 1 →
          containerGet (processUse env st ⟨SlotKind.inventory, idx⟩).data.inventory idx
            = none) ∧
        (1 < it.quantity →
          containerGet (processUse env st ⟨SlotKind.inventory, idx⟩).data.inventory idx
            = some { it with quantity := it.quantity - 1 }) ∧
        Effect.sync ∈ (processUse env st ⟨SlotKind.inventory, idx⟩).effects ∧
        Effect.save SlotKind.inventory ∈ (processUse env st ⟨SlotKind.inventory, idx⟩).effects) ∧
      (isFlagEnabled it.behavior ITEM_TYPE_CONSUMABLE = true →
        ∀ ev, it.dataEvent = some ev →
        Effect.emitItemEvent ev (if isFlagEnabled it.behavior ITEM_TYPE_SKIP_CONSUMABLE
            then it else { it with quantity := it.quantity - 1 }) idx
          ∈ (processUse env st ⟨SlotKind.inventory, idx⟩).effects) := by
  intro env st idx it hget hequip
  have hpu : processUse env st ⟨SlotKind.inventory, idx⟩ = useConsumable st idx it := by
    unfold processUse
    dsimp only [cont]
    simp only [hget, hequip]
  have hslot : it.slot = idx := by
    have hx : st.data.inventory.find? (fun i => decide (i.slot = idx)) = some it := by
      simpa [containerGet] using hget
    simpa using List.find?_some hx
  have hmem : it ∈ st.data.inventory := by
    have hx : st.data.inventory.find? (fun i => decide (i.slot = idx)) = some it := by
      simpa [containerGet] using hget
    exact List.mem_of_find?_eq_some hx
  have hany : st.data.inventory.any (fun i => decide (i.slot = idx)) = true :=
    List.any_eq_true.mpr ⟨it, hmem, by simp [hslot]⟩
  refine ⟨?_, ?_, ?_, ?_⟩
  · intro hcons
    rw [hpu]
    unfold useConsumable
    rw [if_pos (show (!isFlagEnabled it.behavior ITEM_TYPE_CONSUMABLE) = true by
      simp [hcons])]
  · intro hcons hskip
    rw [hpu]
    unfold useConsumable
    rw [if_neg (show ¬ (!isFlagEnabled it.behavior ITEM_TYPE_CONSUMABLE) = true by
      simp [hcons])]
    simp only [hskip, if_true]
  · intro hcons hskip
    rw [hpu]
    unfold useConsumable
    rw [if_neg (show ¬ (!isFlagEnabled it.behavior ITEM_TYPE_CONSUMABLE) = true by
      simp [hcons])]
    simp only [hskip, Bool.false_eq_true, if_false]
    refine ⟨?_, ?_, ?_, ?_⟩
    · intro hq
      rw [if_pos (show it.quantity - 1 ≤ 0 by omega)]
      simp only [containerRemove, hany, if_true]
      exact find?_filter_slot_none st.data.inventory idx
    · intro hq
      rw [if_neg (show ¬ it.quantity - 1 ≤ 0 by omega)]
      unfold containerGet replaceInventoryItem
      have hpres : ∀ i : Item,
          ((fun i : Item => if i.slot = ({ it with quantity := it.quantity - 1 } : Item).slot
            then ({ it with quantity := it.quantity - 1 } : Item) else i) i).slot = i.slot := by
        intro i
        by_cases hi : i.slot = ({ it with quantity := it.quantity - 1 } : Item).slot
        · simp [hi]
        · simp [hi]
      rw [find?_slot_map _ hpres]
      have hx : st.data.inventory.find? (fun i => decide (i.slot = idx)) = some it := by
        simpa [containerGet] using hget
      rw [hx]
      simp [hslot]
    · simp
    · simp
  · intro hcons ev hev
    rw [hpu]
    unfold useConsumable
    rw [if_neg (show ¬ (!isFlagEnabled it.behavior ITEM_TYPE_CONSUMABLE) = true by
      simp [hcons])]
    cases hskip : isFlagEnabled it.behavior ITEM_TYPE_SKIP_CONSUMABLE with
    | true => simp [hskip, hev]
    | false => simp [hskip, hev, List.mem_append]

/-- A personal storage consumable of quantity 2 carrying an event name. -/
def itemInvCons : Item :=
  { sampleItem with behavior := 4, quantity := 2, dataEvent := some "effect:Heal" }

/-- State holding the personal storage consumable for the C8 witness. -/
def stW8 : St :=
  { data := { inventory := [itemInvCons], equipment := [], toolbar := [] }, ground := [] }

/-- Witness for C8: using the quantity-2 consumable leaves quantity 1 in the
same slot and emits its event. -/
theorem c8_witness :
    containerGet (processUse baseEnv stW8 ⟨SlotKind.inventory, 0⟩).data.inventory 0 =
      some { itemInvCons with quantity := itemInvCons.quantity - 1 } ∧
    Effect.emitItemEvent "effect:Heal"
      (if isFlagEnabled itemInvCons.behavior ITEM_TYPE_SKIP_CONSUMABLE then itemInvCons
        else { itemInvCons with quantity := itemInvCons.quantity - 1 }) 0
      ∈ (processUse baseEnv stW8 ⟨SlotKind.inventory, 0⟩).effects := by
  have h := c8_use_consumable_personal_storage baseEnv stW8 0 itemInvCons rfl rfl
  exact ⟨(h.2.2.1 rfl rfl).2.1 (by decide), h.2.2.2 rfl "effect:Heal" rfl⟩
